import Mathlib

/-!
Shallow embedding of the COL334 reliable-UDP file-transfer programs
(part1: p1_server.py / p1_client.py, part2: p2_server.py / p2_client.py /
p2_server2.py) and proofs about their wire codec, receiver reassembly,
RTT/RTO estimator, and sender send-window machinery.

Conventions of the embedding:
* bytes are naturals (each octet 0..255); byte strings are lists of naturals;
* Python floats are modelled by exact rationals; the float literals 0.7, 0.4
  and 0.3 appearing in p2_server.py are modelled by the rationals 7/10, 2/5
  and 3/10 (the difference to their IEEE-754 values is below 2^-50 and no
  theorem below depends on it: every concrete trace evaluated here only
  exercises dyadic values, on which Python float arithmetic is exact);
* each call of time.time() in the source becomes an explicit rational-valued
  time parameter of the corresponding phase of the event loop;
* Python dicts with integer keys become association lists; the sources only
  ever insert fresh keys in increasing order, refresh values in place and
  delete keys, so insertion order coincides with increasing key order, which
  matches both iteration idioms used by the sources (list(d.keys()) and
  sorted(d.keys())).
-/

namespace RUDP

set_option maxRecDepth 10000

/-- MAX_PAYLOAD = 1200 (both parts). -/
def MAX_PAYLOAD : ℕ := 1200

/-- HEADER_SIZE = 20 (both parts). -/
def HEADER_SIZE : ℕ := 20

/-- DATA_SIZE = MAX_PAYLOAD - HEADER_SIZE = 1180 (both parts). -/
def DATA_SIZE : ℕ := MAX_PAYLOAD - HEADER_SIZE

/-- MSS = DATA_SIZE (p2_server.py). -/
def MSS : ℕ := DATA_SIZE

/-- The three-octet payload b'EOF' = [0x45, 0x4F, 0x46]. -/
def eofBytes : List ℕ := [69, 79, 70]

/-! ### Wire codec -/

/-- struct.pack with format !I: big-endian 4-octet encoding of a 32-bit
unsigned integer. -/
def packBE4 (n : ℕ) : List ℕ :=
  [n / 2 ^ 24 % 256, n / 2 ^ 16 % 256, n / 2 ^ 8 % 256, n % 256]

/-- struct.unpack with format !I applied to the first four octets. -/
def unpackBE4 (b0 b1 b2 b3 : ℕ) : ℕ :=
  ((b0 * 256 + b1) * 256 + b2) * 256 + b3

/-- First four octets of a list, decoded big-endian (0 if shorter; callers
always guard the length first, mirroring the sources). -/
def unpackBE4L (packet : List ℕ) : ℕ :=
  match packet with
  | b0 :: b1 :: b2 :: b3 :: _ => unpackBE4 b0 b1 b2 b3
  | _ => 0

/-- create_packet(seq_num, data) of p1_server.py / p2_server.py /
p2_server2.py: 4-octet big-endian seq_num, 16 reserved zero octets, data. -/
def create_packet (seq_num : ℕ) (data : List ℕ) : List ℕ :=
  packBE4 seq_num ++ List.replicate 16 0 ++ data

/-- create_ack(ack_num) of p1_client.py / p2_client.py: header only, no
payload. -/
def create_ack (ack_num : ℕ) : List ℕ :=
  packBE4 ack_num ++ List.replicate 16 0

/-- parse_ack(packet) of p1_server.py / p2_server.py / p2_server2.py:
None when the datagram is shorter than 4 octets, else the first four octets
decoded big-endian.  Note the guard is 4, not HEADER_SIZE. -/
def parse_ack (packet : List ℕ) : Option ℕ :=
  if packet.length < 4 then none else some (unpackBE4L packet)

/-- parse_packet(packet) of p1_client.py / p2_client.py: None when shorter
than HEADER_SIZE octets, else (offset from the first four octets, payload
after the 20-octet header). -/
def parse_packet (packet : List ℕ) : Option (ℕ × List ℕ) :=
  if packet.length < HEADER_SIZE then none
  else some (unpackBE4L packet, packet.drop HEADER_SIZE)

/-! ### Receiver reassembly (p1_client.py and p2_client.py) -/

/-- Python d.pop(k) on an association list: the value at the first
occurrence of the key together with the list with that entry removed. -/
def lookupRemove (k : ℕ) : List (ℕ × List ℕ) →
    Option (List ℕ × List (ℕ × List ℕ))
  | [] => none
  | (k1, v) :: rest =>
      if k1 = k then some (v, rest)
      else match lookupRemove k rest with
           | none => none
           | some (v1, rest1) => some (v1, (k1, v) :: rest1)

/-- Drain loop of the receivers, with explicit fuel so that the function is
structurally recursive (hence kernel-computable).  Each iteration removes
one buffered entry, so fuel = buf.length never runs out; drainBuf_eq below
proves the fueled function satisfies the defining equation of the loop. -/
def drainBufGo (fuel : ℕ) (advanceOf : List ℕ → ℕ) (expected : ℕ)
    (buf : List (ℕ × List ℕ)) (delivered : List (List ℕ)) :
    ℕ × List (ℕ × List ℕ) × List (List ℕ) :=
  match fuel with
  | 0 => (expected, buf, delivered)
  | fuel1 + 1 =>
      match lookupRemove expected buf with
      | none => (expected, buf, delivered)
      | some (d, buf1) =>
          drainBufGo fuel1 advanceOf (expected + advanceOf d) buf1
            (delivered ++ [d])

/-- Drain loop of the receivers: while the next expected key is buffered,
pop its payload, append it to the delivered list and advance the expected
counter by advanceOf(payload).  p2_client.py advances by len(payload);
p1_client.py advances by DATA_SIZE in the main loop and by 1 in the EOF
flush. -/
def drainBuf (advanceOf : List ℕ → ℕ) (expected : ℕ)
    (buf : List (ℕ × List ℕ)) (delivered : List (List ℕ)) :
    ℕ × List (ℕ × List ℕ) × List (List ℕ) :=
  drainBufGo buf.length advanceOf expected buf delivered

/-- Python k in d on an association list. -/
def hasKey (k : ℕ) (l : List (ℕ × List ℕ)) : Bool :=
  l.any (fun e => e.1 == k)

/-- Receiver state shared by both clients: expected next offset
(expected_chunk in p1_client.py, expected_seq in p2_client.py), reorder
buffer (pending_chunks / self.buffer) and delivered payload list
(ordered_data / received_data). -/
structure RecvState where
  expected : ℕ
  buffer : List (ℕ × List ℕ)
  delivered : List (List ℕ)
deriving DecidableEq

/-- The initial receiver state of both clients. -/
def initRecvState : RecvState := ⟨0, [], []⟩

/-- Processing of one inbound datagram by p1_client.py receive_file (lines
126-188).  Result: new state, list of emitted cumulative-ACK values, and
whether the EOF branch ran (file written, return True).
Case order as in the source: undecodable datagram (continue), EOF (five
ACKs carrying the EOF offset, flush advancing expected_chunk by 1, write),
duplicate (offset below expected_chunk: re-ACK, no mutation), otherwise
insert-if-absent followed by the drain loop, which advances expected_chunk
by DATA_SIZE per drained entry, and one cumulative ACK. -/
def p1ClientStep (st : RecvState) (packet : List ℕ) :
    RecvState × List ℕ × Bool :=
  match parse_packet packet with
  | none => (st, [], false)
  | some (chunk_idx, data) =>
      if data = eofBytes then
        let r := drainBuf (fun _ => 1) st.expected st.buffer st.delivered
        (⟨r.1, r.2.1, r.2.2⟩, List.replicate 5 chunk_idx, true)
      else if chunk_idx < st.expected then
        (st, [st.expected], false)
      else
        let buf1 := if hasKey chunk_idx st.buffer then st.buffer
                    else st.buffer ++ [(chunk_idx, data)]
        let r := drainBuf (fun _ => DATA_SIZE) st.expected buf1 st.delivered
        (⟨r.1, r.2.1, r.2.2⟩, [r.1], false)

/-- Processing of one inbound datagram by p2_client.py receive_file (lines
94-140).  Same shape as p1ClientStep except: the in-order case appends the
payload directly and advances expected_seq by len(data), the drain loop
advances by the length of each drained payload, and the five EOF ACKs carry
expected_seq rather than the EOF offset. -/
def p2ClientStep (st : RecvState) (packet : List ℕ) :
    RecvState × List ℕ × Bool :=
  match parse_packet packet with
  | none => (st, [], false)
  | some (seq_num, data) =>
      if data = eofBytes then
        (st, List.replicate 5 st.expected, true)
      else if seq_num = st.expected then
        let r := drainBuf (fun d => d.length) (st.expected + data.length)
          st.buffer (st.delivered ++ [data])
        (⟨r.1, r.2.1, r.2.2⟩, [r.1], false)
      else if seq_num > st.expected then
        let buf1 := if hasKey seq_num st.buffer then st.buffer
                    else st.buffer ++ [(seq_num, data)]
        (⟨st.expected, buf1, st.delivered⟩, [st.expected], false)
      else
        (st, [st.expected], false)

/-- One observation of the receive loop socket: either a datagram arrives
within the 500 ms poll window, or the 500 ms socket timeout fires. -/
inductive NetEvent where
  | pkt (p : List ℕ)
  | idle
deriving DecidableEq

/-- The socket timeout of the receive loops, in seconds
(sock.settimeout(0.5) in both clients): one idle interval is 500 ms. -/
def recvPollTimeout : ℚ := 1 / 2

/-- The receive loop skeleton shared by p1_client.py (lines 123-214) and
p2_client.py (lines 91-167), abstracted over the per-datagram processing:
a datagram arrival resets consecutive_timeouts to 0 and is processed (the
EOF branch returns True); a socket timeout increments consecutive_timeouts
and the loop breaks, falling through to return False, when the counter
exceeds 20.  Result: some true = returned True (EOF, file written),
some false = stalled (returned False, no file written), none = the supplied
event list ran out with the loop still running.  The duplicate-ACK
emissions on idle are time-gated output actions that do not affect this
control flow and are not tracked here. -/
def recvLoop (step : RecvState → List ℕ → RecvState × List ℕ × Bool) :
    RecvState → ℕ → List NetEvent → Option Bool
  | _, _, [] => none
  | st, _, NetEvent.pkt p :: es =>
      let r := step st p
      if r.2.2 then some true else recvLoop step r.1 0 es
  | st, c, NetEvent.idle :: es =>
      if c + 1 > 20 then some false else recvLoop step st (c + 1) es

/-! ### RTT/RTO estimators -/

/-- ALPHA = 1/8 (p1_server.py; p2_server.py writes it 0.125). -/
def ALPHA : ℚ := 1 / 8

/-- BETA = 1/4 (p1_server.py; p2_server.py writes it 0.25). -/
def BETA : ℚ := 1 / 4

/-- K = 4 (both servers). -/
def K : ℚ := 4

/-- INITIAL_TIMEOUT = 1.0 s (all servers). -/
def INITIAL_TIMEOUT : ℚ := 1

/-- RTT estimator state: estimated_rtt, dev_rtt, rto. -/
structure RttState where
  estimated_rtt : ℚ
  dev_rtt : ℚ
  rto : ℚ
deriving DecidableEq

/-- update_rtt of p1_server.py (lines 85-97).  First sample (sentinel
estimated_rtt == -1): srtt := sample, dev := sample/2, rto := 1.5*sample,
returned without any clamp.  Later samples: EWMA updates (note the source
updates estimated_rtt first and then uses the new value inside dev_rtt),
then rto := srtt + K*dev clamped from below by 0.1 s only; the two-sided
clamp to [0.1, 2.0] is present in the source only as a commented-out
line. -/
def p1_update_rtt (sample_rtt : ℚ) (r : RttState) : RttState :=
  if r.estimated_rtt = -1 then
    { estimated_rtt := sample_rtt, dev_rtt := sample_rtt / 2,
      rto := sample_rtt * (3 / 2) }
  else
    let est := (1 - ALPHA) * r.estimated_rtt + ALPHA * sample_rtt
    let dev := (1 - BETA) * r.dev_rtt + BETA * |sample_rtt - est|
    { estimated_rtt := est, dev_rtt := dev,
      rto := max (1 / 10) (est + K * dev) }

/-- update_rtt of p2_server.py (lines 85-90): no first-sample sentinel
(estimated_rtt starts at INITIAL_TIMEOUT), EWMA updates as in part 1, and
rto := max(0.3, min(srtt + K*dev, 3.0)) — a clamp to [0.3 s, 3.0 s]. -/
def p2_update_rtt (sample_rtt : ℚ) (r : RttState) : RttState :=
  let est := (1 - ALPHA) * r.estimated_rtt + ALPHA * sample_rtt
  let dev := (1 - BETA) * r.dev_rtt + BETA * |sample_rtt - est|
  { estimated_rtt := est, dev_rtt := dev,
    rto := max (3 / 10) (min (est + K * dev) 3) }

/-- update_rtt of p2_server2.py (lines 131-138), RTO part only: ALPHA = 0.3
and BETA = 0.4 (modelled by 3/10 and 2/5), rto := srtt + dev (no K factor),
clamped to [0.1 s, 2.0 s].  The BBR min_rtt bookkeeping of the same source
function is not needed by any claim below. -/
def p2s2_update_rtt (sample_rtt : ℚ) (r : RttState) : RttState :=
  let est := (1 - 3 / 10) * r.estimated_rtt + 3 / 10 * sample_rtt
  let dev := (1 - 2 / 5) * r.dev_rtt + 2 / 5 * |sample_rtt - est|
  { estimated_rtt := est, dev_rtt := dev,
    rto := max (1 / 10) (min (est + dev) 2) }

/-! ### Sender machinery shared by p1_server.py and p2_server.py -/

/-- Python d[k] = t on an association list of timestamps: replace in place
when the key exists (preserving dict insertion order), else append. -/
def setAssocQ (k : ℕ) (t : ℚ) (l : List (ℕ × ℚ)) : List (ℕ × ℚ) :=
  if l.any (fun e => e.1 == k) then
    l.map (fun e => if e.1 = k then (k, t) else e)
  else l ++ [(k, t)]

/-- Python d.get(k) on the in-flight table: the last-send timestamp of the
segment at offset k, when in flight. -/
def lookupTime (k : ℕ) (l : List (ℕ × ℚ)) : Option ℚ :=
  (l.find? (fun e => e.1 == k)).map (fun e => e.2)

/-- Python d.get(k, 0) on the duplicate-ACK counter dict. -/
def getCount (k : ℕ) (l : List (ℕ × ℕ)) : ℕ :=
  ((l.find? (fun e => e.1 == k)).map (fun e => e.2)).getD 0

/-- Python d[k] = c on the duplicate-ACK counter dict. -/
def setCount (k : ℕ) (c : ℕ) (l : List (ℕ × ℕ)) : List (ℕ × ℕ) :=
  if l.any (fun e => e.1 == k) then
    l.map (fun e => if e.1 = k then (k, c) else e)
  else l ++ [(k, c)]

/-- The fill loop shared verbatim by p1_server.py (lines 133-141) and
p2_server.py (lines 244-251): while next_seq < total and
next_seq - base < w, transmit the chunk at offset next_seq (whose length
is DATA_SIZE except for a shorter final chunk), record its send time and
advance next_seq.  The loop body's inner guard chunk_idx < len(chunks) is
implied by next_seq < total and is dropped here.  Fuel-structured; fuel =
total - next_seq never runs out because each transmission advances
next_seq by at least one byte. -/
def fillGo (fuel : ℕ) (total : ℕ) (w : ℤ) (base : ℕ) (now : ℚ)
    (next_seq : ℕ) (packets : List (ℕ × ℚ)) (sent : List ℕ) :
    ℕ × List (ℕ × ℚ) × List ℕ :=
  match fuel with
  | 0 => (next_seq, packets, sent)
  | fuel1 + 1 =>
      if next_seq < total ∧ (next_seq : ℤ) - base < w then
        let len := min DATA_SIZE (total - DATA_SIZE * (next_seq / DATA_SIZE))
        fillGo fuel1 total w base now (next_seq + len)
          (setAssocQ next_seq now packets) (sent ++ [next_seq])
      else (next_seq, packets, sent)

/-- Entry point of the fill loop with adequate fuel. -/
def fill (total : ℕ) (w : ℤ) (base : ℕ) (now : ℚ) (next_seq : ℕ)
    (packets : List (ℕ × ℚ)) : ℕ × List (ℕ × ℚ) × List ℕ :=
  fillGo (total - next_seq) total w base now next_seq packets []

/-- An RTT sample fed to update_rtt, instrumented (ghost field
fromRetransmitted) with whether the sampled segment had been retransmitted
at least once at the moment of the ACK. -/
structure KarnSample where
  offset : ℕ
  value : ℚ
  fromRetransmitted : Bool
deriving DecidableEq

/-- Observable output of one ACK-processing step: the RTT sample fed to the
estimator (if any) and the offset fast-retransmitted (if any). -/
structure AckOut where
  sample : Option KarnSample
  fastRetx : Option ℕ
deriving DecidableEq

/-- One outer-loop iteration's inputs: the time at which the fill phase
sends, the inbound datagram (none = the 1 ms socket poll timed out), the
time at the ACK-processing phase, and the time at the timeout sweep.  Each
models one cluster of time.time() calls in the source. -/
structure IterIn where
  tFill : ℚ
  dgram : Option (List ℕ)
  tAck : ℚ
  tSweep : ℚ

/-- Log of the observable actions of a run: RTT samples fed, fast
retransmissions, timeout retransmissions, and first transmissions. -/
structure RunLog where
  samples : List KarnSample
  fastRetx : List ℕ
  timeoutRetx : List ℕ
  firstTx : List ℕ
deriving DecidableEq

/-- The empty log. -/
def emptyLog : RunLog := ⟨[], [], [], []⟩

/-- Concatenation of run logs. -/
def logAppend (a b : RunLog) : RunLog :=
  ⟨a.samples ++ b.samples, a.fastRetx ++ b.fastRetx,
   a.timeoutRetx ++ b.timeoutRetx, a.firstTx ++ b.firstTx⟩

/-! ### p1_server.py sender machine -/

/-- Sender state of p1_server.py: base, next_seq, the in-flight table
packets (offset -> last-send time; the stored segment bytes are always
create_packet(offset, chunk at offset) and are left implicit), the
duplicate-ACK counter dict, the RTT estimator state, and a ghost history
field recording which offsets have been retransmitted at least once (used
only to state Karn's rule; it does not influence any transition). -/
structure P1State where
  base : ℕ
  next_seq : ℕ
  packets : List (ℕ × ℚ)
  dup_ack_count : List (ℕ × ℕ)
  rtt : RttState
  retransmitted : List ℕ
deriving DecidableEq

/-- State at the top of send_file in p1_server.py (lines 117-120, with the
estimator state from __init__: estimated_rtt = -1, dev_rtt = 0,
rto = INITIAL_TIMEOUT). -/
def p1InitState : P1State := ⟨0, 0, [], [], ⟨-1, 0, INITIAL_TIMEOUT⟩, []⟩

/-- ACK processing of p1_server.py send_file (lines 144-176).  A datagram
shorter than 4 octets parses to None and is ignored.  ack_num > base: feed
an RTT sample from the (last-send) timestamp of the segment at base when it
is still in flight, drop all in-flight entries below ack_num, set base,
clear the duplicate-ACK dict.  ack_num = base: bump the duplicate counter;
on exactly the third duplicate, if base is in flight, retransmit it with a
fresh timestamp.  ack_num < base: ignored. -/
def p1AckStep (now : ℚ) (ack_packet : List ℕ) (st : P1State) :
    P1State × AckOut :=
  match parse_ack ack_packet with
  | none => (st, ⟨none, none⟩)
  | some ack_num =>
      if st.base < ack_num then
        let sample := (lookupTime st.base st.packets).map
          (fun t => KarnSample.mk st.base (now - t)
            (st.retransmitted.contains st.base))
        let rtt1 := match lookupTime st.base st.packets with
          | some t => p1_update_rtt (now - t) st.rtt
          | none => st.rtt
        ({ st with
            rtt := rtt1,
            packets := st.packets.filter (fun e => decide (ack_num ≤ e.1)),
            base := ack_num,
            dup_ack_count := [] }, ⟨sample, none⟩)
      else if ack_num = st.base then
        let c := getCount ack_num st.dup_ack_count + 1
        let dup1 := setCount ack_num c st.dup_ack_count
        if c = 3 ∧ (lookupTime st.base st.packets).isSome then
          ({ st with
              dup_ack_count := dup1,
              packets := setAssocQ st.base now st.packets,
              retransmitted := st.retransmitted ++ [st.base] },
           ⟨none, some st.base⟩)
        else ({ st with dup_ack_count := dup1 }, ⟨none, none⟩)
      else (st, ⟨none, none⟩)

/-- Timeout sweep of p1_server.py send_file (lines 182-191): scan the
in-flight table in insertion (= offset) order; retransmit the first entry
with now - send_time > rto, refreshing its timestamp, and break. -/
def p1TimeoutSweep (now : ℚ) (st : P1State) : P1State × Option ℕ :=
  match st.packets.find? (fun e => decide (st.rtt.rto < now - e.2)) with
  | none => (st, none)
  | some e =>
      ({ st with
          packets := setAssocQ e.1 now st.packets,
          retransmitted := st.retransmitted ++ [e.1] }, some e.1)

/-- One iteration of the p1_server.py send loop (lines 131-191): fill,
then process at most one inbound datagram (none models the 1 ms poll
timing out), then the timeout sweep. -/
def p1LoopIter (total sws : ℕ) (e : IterIn) (st : P1State) :
    P1State × RunLog :=
  let f := fill total (sws : ℤ) st.base e.tFill st.next_seq st.packets
  let st1 : P1State := { st with next_seq := f.1, packets := f.2.1 }
  let r := match e.dgram with
    | none => (st1, AckOut.mk none none)
    | some pkt => p1AckStep e.tAck pkt st1
  let s := p1TimeoutSweep e.tSweep r.1
  (s.1, ⟨r.2.sample.toList, r.2.fastRetx.toList, s.2.toList, f.2.2⟩)

/-- The p1_server.py send loop: iterate while base < total (line 131),
accumulating the log of observable actions. -/
def p1Run (total sws : ℕ) : List IterIn → P1State → P1State × RunLog
  | [], st => (st, emptyLog)
  | e :: es, st =>
      if st.base < total then
        let r := p1LoopIter total sws e st
        let rest := p1Run total sws es r.1
        (rest.1, logAppend r.2 rest.2)
      else (st, emptyLog)

/-! ### p2_server.py sender machine (CUBIC congestion control) -/

/-- INITIAL_SSTHRESH = 128 * MSS (p2_server.py). -/
def INITIAL_SSTHRESH : ℕ := 128 * MSS

/-- CUBIC_C, the float literal 0.4, modelled as 2/5. -/
def CUBIC_C : ℚ := 2 / 5

/-- CUBIC_BETA, the float literal 0.7, modelled as 7/10. -/
def CUBIC_BETA : ℚ := 7 / 10

/-- Sender state of p2_server.py (fields of __init__ lines 38-64 that
send_file uses), plus the same ghost retransmission history as P1State.
cwnd, ssthresh, w_tcp, bytes_acked_in_rtt are Python numbers that can
become floats; they are modelled as rationals. -/
structure P2State where
  base : ℕ
  next_seq : ℕ
  packets : List (ℕ × ℚ)
  dup_ack_count : List (ℕ × ℕ)
  last_ack : ℕ
  cwnd : ℚ
  ssthresh : ℚ
  in_slow_start : Bool
  bytes_acked_in_rtt : ℚ
  in_fast_recovery : Bool
  recover : ℕ
  w_max : ℚ
  epoch_start : ℚ
  origin_point : ℚ
  K_cubic : ℚ
  w_tcp : ℚ
  ack_cnt : ℕ
  rtt : RttState
  retransmitted : List ℕ
deriving DecidableEq

/-- State after the reset block at the top of send_file in p2_server.py
(lines 208-227): ssthresh := min(INITIAL_SSTHRESH, max(4*MSS, total_bytes)),
cwnd := MSS, slow start; the estimator state from __init__ is
estimated_rtt = INITIAL_TIMEOUT, dev_rtt = 0, rto = INITIAL_TIMEOUT. -/
def p2InitState (total_bytes : ℕ) : P2State where
  base := 0
  next_seq := 0
  packets := []
  dup_ack_count := []
  last_ack := 0
  cwnd := MSS
  ssthresh := min INITIAL_SSTHRESH (max (4 * MSS) total_bytes)
  in_slow_start := true
  bytes_acked_in_rtt := 0
  in_fast_recovery := false
  recover := 0
  w_max := 0
  epoch_start := 0
  origin_point := 0
  K_cubic := 0
  w_tcp := 0
  ack_cnt := 0
  rtt := ⟨INITIAL_TIMEOUT, 0, INITIAL_TIMEOUT⟩
  retransmitted := []

/-- The epoch-start block of on_new_ack in congestion avoidance
(p2_server.py lines 105-117).  The cube root
((w_max - cwnd)/(C*MSS)) ** (1/3) computed by the source in floating point
has no exact rational value, so the machine is parameterized by the
function cbrt used at exactly that call site (no theorem below depends on
its values: every concrete trace evaluated here stays in slow start). -/
def p2CubicEpochStart (cbrt : ℚ → ℚ) (now : ℚ) (st : P2State) : P2State :=
  if st.epoch_start = 0 then
    if st.w_max ≤ st.cwnd then
      { st with
          epoch_start := now
          ack_cnt := 1
          w_tcp := st.cwnd
          K_cubic := 0
          origin_point := st.cwnd }
    else
      { st with
          epoch_start := now
          ack_cnt := 1
          w_tcp := st.cwnd
          K_cubic := cbrt ((st.w_max - st.cwnd) / (CUBIC_C * MSS))
          origin_point := st.w_max }
  else st

/-- The growth computation of on_new_ack in congestion avoidance
(p2_server.py lines 119-147), run after p2CubicEpochStart: the cubic
target, the TCP-friendliness shadow window, the growth quantum cnt, and
the accumulated-bytes test that grows cwnd by one MSS. -/
def p2CubicGrow (now : ℚ) (acked_bytes : ℚ) (st1 : P2State) : P2State :=
  let t := now - st1.epoch_start
  let target0 := st1.origin_point + CUBIC_C * MSS * (t - st1.K_cubic) ^ 3
  let ack_cnt1 := st1.ack_cnt + 1
  let push := st1.cwnd ≤ (ack_cnt1 : ℚ) * MSS
  let w_tcp1 := if push then st1.w_tcp + MSS else st1.w_tcp
  let ack_cnt2 := if push then 0 else ack_cnt1
  let target := if target0 < w_tcp1 then w_tcp1 else target0
  let cnt :=
    if st1.cwnd < target then
      let cnt0 := st1.cwnd / (target - st1.cwnd)
      if cnt0 < 1 then 1 else cnt0
    else 100 * st1.cwnd
  let ba := st1.bytes_acked_in_rtt + acked_bytes
  if cnt ≤ ba then
    { st1 with
        w_tcp := w_tcp1
        ack_cnt := ack_cnt2
        cwnd := st1.cwnd + MSS
        bytes_acked_in_rtt := 0 }
  else
    { st1 with
        w_tcp := w_tcp1
        ack_cnt := ack_cnt2
        bytes_acked_in_rtt := ba }

/-- on_new_ack of p2_server.py (lines 92-153).  In slow start cwnd grows
by MSS per ACK and slow start ends when cwnd reaches ssthresh (resetting
the CUBIC epoch).  Otherwise the CUBIC congestion-avoidance update runs:
the epoch-start block followed by the growth computation.
TCP_FRIENDLINESS and CUBIC_FAST_CONVERGENCE are True in the source. -/
def p2_on_new_ack (cbrt : ℚ → ℚ) (now : ℚ) (acked_bytes : ℚ)
    (st : P2State) : P2State :=
  if st.in_slow_start then
    let cwnd1 := st.cwnd + MSS
    if st.ssthresh ≤ cwnd1 then
      { st with cwnd := cwnd1, in_slow_start := false, epoch_start := 0 }
    else { st with cwnd := cwnd1 }
  else
    p2CubicGrow now acked_bytes (p2CubicEpochStart cbrt now st)

/-- on_timeout of p2_server.py (lines 155-166): ssthresh :=
max(cwnd // 2, 2*MSS), w_max := cwnd, cwnd := MSS, back to slow start,
counters and fast-recovery flags cleared, recover := base, CUBIC epoch
reset. -/
def p2_on_timeout (st : P2State) : P2State :=
  { st with
      ssthresh := max ((⌊st.cwnd / 2⌋ : ℤ) : ℚ) ((2 * MSS : ℕ) : ℚ),
      w_max := st.cwnd,
      cwnd := MSS,
      in_slow_start := true,
      bytes_acked_in_rtt := 0,
      dup_ack_count := [],
      in_fast_recovery := false,
      recover := st.base,
      epoch_start := 0 }

/-- on_fast_retransmit of p2_server.py (lines 168-187): fast convergence
on w_max, ssthresh := max(int(cwnd * CUBIC_BETA), 2*MSS), cwnd :=
ssthresh + 3*MSS, leave slow start, enter fast recovery with recover :=
next_seq, CUBIC epoch reset.  Python's int() truncates toward zero; cwnd
is nonnegative in every reachable state, so it is modelled by the floor. -/
def p2_on_fast_retransmit (st : P2State) : P2State :=
  let w_max1 :=
    if st.cwnd < st.w_max then
      ((⌊st.cwnd * (2 + CUBIC_BETA) / 2⌋ : ℤ) : ℚ)
    else st.cwnd
  let ss := max ((⌊st.cwnd * CUBIC_BETA⌋ : ℤ) : ℚ) ((2 * MSS : ℕ) : ℚ)
  { st with
      w_max := w_max1,
      ssthresh := ss,
      cwnd := ss + 3 * MSS,
      in_slow_start := false,
      bytes_acked_in_rtt := 0,
      in_fast_recovery := true,
      recover := st.next_seq,
      epoch_start := 0 }

/-- get_effective_window of p2_server.py (lines 189-191): int(cwnd). -/
def p2EffectiveWindow (st : P2State) : ℤ := ⌊st.cwnd⌋

/-- ACK processing of p2_server.py send_file (lines 254-306).  ack_num >
base: RTT sample exactly as in part 1 (but through p2_update_rtt), drop
acknowledged in-flight entries, advance base, clear the duplicate-ACK dict,
exit fast recovery when ack_num ≥ recover (cwnd := ssthresh), then
on_new_ack(ack_num - old base).  ack_num = base: bump the duplicate
counter; on exactly the third duplicate, if base is in flight, retransmit
it and run on_fast_retransmit; on later duplicates while in fast recovery,
inflate cwnd by MSS.  ack_num < base: ignored. -/
def p2AckStep (cbrt : ℚ → ℚ) (now : ℚ) (ack_packet : List ℕ)
    (st : P2State) : P2State × AckOut :=
  match parse_ack ack_packet with
  | none => (st, ⟨none, none⟩)
  | some ack_num =>
      if st.base < ack_num then
        let acked_bytes := ((ack_num : ℚ) - (st.base : ℚ))
        let sample := (lookupTime st.base st.packets).map
          (fun t => KarnSample.mk st.base (now - t)
            (st.retransmitted.contains st.base))
        let rtt1 := match lookupTime st.base st.packets with
          | some t => p2_update_rtt (now - t) st.rtt
          | none => st.rtt
        let st1 := { st with
          rtt := rtt1,
          packets := st.packets.filter (fun e => decide (ack_num ≤ e.1)),
          base := ack_num,
          last_ack := ack_num,
          dup_ack_count := [] }
        let st2 :=
          if st1.in_fast_recovery ∧ st1.recover ≤ ack_num then
            { st1 with in_fast_recovery := false, cwnd := st1.ssthresh }
          else st1
        (p2_on_new_ack cbrt now acked_bytes st2, ⟨sample, none⟩)
      else if ack_num = st.base then
        let c := getCount ack_num st.dup_ack_count + 1
        let dup1 := setCount ack_num c st.dup_ack_count
        if c = 3 then
          if (lookupTime st.base st.packets).isSome then
            (p2_on_fast_retransmit
              { st with
                  dup_ack_count := dup1,
                  packets := setAssocQ st.base now st.packets,
                  retransmitted := st.retransmitted ++ [st.base] },
             ⟨none, some st.base⟩)
          else ({ st with dup_ack_count := dup1 }, ⟨none, none⟩)
        else if 3 < c ∧ st.in_fast_recovery then
          ({ st with dup_ack_count := dup1, cwnd := st.cwnd + MSS },
           ⟨none, none⟩)
        else ({ st with dup_ack_count := dup1 }, ⟨none, none⟩)
      else (st, ⟨none, none⟩)

/-- Timeout sweep of p2_server.py send_file (lines 311-320): scan the
in-flight table in sorted (= insertion) key order; retransmit the first
entry with now - send_time > rto, refresh its timestamp, run on_timeout,
and break. -/
def p2TimeoutSweep (now : ℚ) (st : P2State) : P2State × Option ℕ :=
  match st.packets.find? (fun e => decide (st.rtt.rto < now - e.2)) with
  | none => (st, none)
  | some e =>
      (p2_on_timeout
        { st with
            packets := setAssocQ e.1 now st.packets,
            retransmitted := st.retransmitted ++ [e.1] }, some e.1)

/-- One iteration of the p2_server.py send loop (lines 239-320): read the
effective window, fill, process at most one inbound datagram, timeout
sweep. -/
def p2LoopIter (cbrt : ℚ → ℚ) (total : ℕ) (e : IterIn) (st : P2State) :
    P2State × RunLog :=
  let w := p2EffectiveWindow st
  let f := fill total w st.base e.tFill st.next_seq st.packets
  let st1 : P2State := { st with next_seq := f.1, packets := f.2.1 }
  let r := match e.dgram with
    | none => (st1, AckOut.mk none none)
    | some pkt => p2AckStep cbrt e.tAck pkt st1
  let s := p2TimeoutSweep e.tSweep r.1
  (s.1, ⟨r.2.sample.toList, r.2.fastRetx.toList, s.2.toList, f.2.2⟩)

/-- The p2_server.py send loop: iterate while base < total (line 239). -/
def p2Run (cbrt : ℚ → ℚ) (total : ℕ) :
    List IterIn → P2State → P2State × RunLog
  | [], st => (st, emptyLog)
  | e :: es, st =>
      if st.base < total then
        let r := p2LoopIter cbrt total e st
        let rest := p2Run cbrt total es r.1
        (rest.1, logAppend r.2 rest.2)
      else (st, emptyLog)

/-- The window-safety property of spec invariant 4 at a sender state:
next_seq - base ≤ effective_window + MSS. -/
def p2WindowSafe (st : P2State) : Prop :=
  (st.next_seq : ℤ) - (st.base : ℤ) ≤ p2EffectiveWindow st + MSS

/-! ### EOF handshake and request handling -/

/-- EOF phase of p1_server.py send_file (lines 193-198): five copies of
create_packet(next_seq, b'EOF'), each followed by time.sleep(0.1). -/
def p1SendEof (next_seq : ℕ) : List (List ℕ) × ℚ :=
  (List.replicate 5 (create_packet next_seq eofBytes), 1 / 10)

/-- EOF phase of p2_server.py send_file (lines 322-326): five copies of
create_packet(next_seq, b'EOF'), each followed by time.sleep(0.05). -/
def p2SendEof (next_seq : ℕ) : List (List ℕ) × ℚ :=
  (List.replicate 5 (create_packet next_seq eofBytes), 1 / 20)

/-- EOF phase of p2_server2.py send_file (lines 397-401): five copies of
create_packet(next_seq, b'EOF'), each followed by time.sleep(0.1). -/
def p2s2SendEof (next_seq : ℕ) : List (List ℕ) × ℚ :=
  (List.replicate 5 (create_packet next_seq eofBytes), 1 / 10)

/-- The request-acceptance test of the run() loops of p1_server.py (line
214), p2_server.py (line 348) and p2_server2.py (line 417): any datagram
with len(data) > 0 starts the transfer; the payload is not compared with
the request octet b'G'. -/
def serverAcceptsRequest (data : List ℕ) : Bool :=
  decide (0 < data.length)

/-- The run() wait loop: the first nonempty inbound datagram (if any)
triggers send_file. -/
def serverAwaitRequest (inbox : List (List ℕ)) : Option (List ℕ) :=
  inbox.find? (fun d => serverAcceptsRequest d)

/-! ### Named runs and properties used by the claims -/

/-- Karn's rule as stated by the spec, over the observable log of a run:
no RTT sample fed to the estimator comes from a segment that had been
retransmitted at least once at the moment it was sampled. -/
def karnRuleHolds (log : RunLog) : Prop :=
  ∀ s ∈ log.samples, s.fromRetransmitted = false

/-- A three-iteration schedule for p1_server.py sending a 1180-byte file
with sws = 1180: iteration 1 (t = 0) transmits the only segment; iteration
2 (t = 2) has no inbound ACK and the timeout sweep retransmits offset 0
(rto is still the initial 1 s); iteration 3 (t = 3) receives the
cumulative ACK 1180. -/
def c2Events : List IterIn :=
  [⟨0, none, 0, 0⟩, ⟨2, none, 2, 2⟩, ⟨3, some (create_ack 1180), 3, 3⟩]

/-- A six-iteration schedule for p2_server.py sending a 11800-byte
(10-segment) file: three ACKed slow-start rounds grow cwnd to 3*MSS and
put 3*MSS bytes in flight, then a quiet period lets the earliest in-flight
segment exceed the RTO, so iteration 6's timeout sweep fires on_timeout,
which shrinks cwnd to one MSS while 3*MSS bytes remain in flight. -/
def c5Events : List IterIn :=
  [⟨0, none, 0, 0⟩,
   ⟨1 / 4, some (create_ack 1180), 1 / 4, 1 / 4⟩,
   ⟨1 / 2, none, 1 / 2, 1 / 2⟩,
   ⟨3 / 4, some (create_ack 3540), 3 / 4, 3 / 4⟩,
   ⟨1, none, 1, 1⟩,
   ⟨3, none, 3, 3⟩]

/-- A p1_server.py sender state with two segments in flight and two
duplicate ACKs already recorded for base = 0. -/
def c4P1State : P1State :=
  ⟨0, 2360, [(0, 0), (1180, 0)], [(0, 2)], ⟨-1, 0, 1⟩, []⟩

/-- A p2_server.py sender state with two segments in flight and two
duplicate ACKs already recorded for base = 0. -/
def c4P2State : P2State :=
  { p2InitState 11800 with
      next_seq := 2360
      packets := [(0, 0), (1180, 0)]
      dup_ack_count := [(0, 2)] }

/-! ### Supporting lemmas -/

theorem DATA_SIZE_eq : DATA_SIZE = 1180 := rfl

theorem unpackBE4_packBE4 (n : ℕ) (hn : n < 2 ^ 32) :
    unpackBE4 (n / 2 ^ 24 % 256) (n / 2 ^ 16 % 256) (n / 2 ^ 8 % 256)
      (n % 256) = n := by
  unfold unpackBE4
  omega

theorem parse_ack_create_ack (n : ℕ) (hn : n < 2 ^ 32) :
    parse_ack (create_ack n) = some n := by
  unfold parse_ack create_ack packBE4 unpackBE4L
  simp only [List.cons_append, List.length_cons, List.length_append,
    List.length_replicate]
  norm_num
  exact unpackBE4_packBE4 n hn

theorem parse_packet_create_packet (o : ℕ) (p : List ℕ) (ho : o < 2 ^ 32) :
    parse_packet (create_packet o p) = some (o, p) := by
  unfold parse_packet create_packet packBE4 unpackBE4L HEADER_SIZE
  simp only [List.cons_append, List.length_cons, List.length_append,
    List.length_replicate, List.drop_succ_cons, List.nil_append]
  norm_num [List.drop_replicate]
  exact ⟨by omega, unpackBE4_packBE4 o ho⟩

theorem lookupRemove_length {k : ℕ} {buf : List (ℕ × List ℕ)}
    {v : List ℕ} {buf1 : List (ℕ × List ℕ)}
    (h : lookupRemove k buf = some (v, buf1)) :
    buf1.length < buf.length := by
  induction buf generalizing v buf1 with
  | nil => simp [lookupRemove] at h
  | cons hd tl ih =>
      obtain ⟨k1, d⟩ := hd
      unfold lookupRemove at h
      by_cases hk : k1 = k
      · simp only [hk, if_true, ite_true, Option.some.injEq, Prod.mk.injEq]
          at h
        rw [← h.2]
        simp
      · simp only [hk, ite_false] at h
        cases htl : lookupRemove k tl with
        | none => rw [htl] at h; simp at h
        | some vr =>
            obtain ⟨v1, rest1⟩ := vr
            rw [htl] at h
            simp only [Option.some.injEq, Prod.mk.injEq] at h
            rw [← h.2]
            have := ih htl
            simp only [List.length_cons]
            omega

theorem drainBufGo_nil (fuel : ℕ) (advanceOf : List ℕ → ℕ) (expected : ℕ)
    (delivered : List (List ℕ)) :
    drainBufGo fuel advanceOf expected [] delivered =
      (expected, [], delivered) := by
  cases fuel with
  | zero => rfl
  | succ n => rfl

theorem drainBufGo_fuel (fuel1 : ℕ) : ∀ (fuel2 : ℕ)
    (advanceOf : List ℕ → ℕ) (expected : ℕ) (buf : List (ℕ × List ℕ))
    (delivered : List (List ℕ)), buf.length ≤ fuel1 → buf.length ≤ fuel2 →
    drainBufGo fuel1 advanceOf expected buf delivered =
      drainBufGo fuel2 advanceOf expected buf delivered := by
  induction fuel1 with
  | zero =>
      intro fuel2 advanceOf expected buf delivered h1 _
      have : buf = [] := List.length_eq_zero.mp (Nat.le_zero.mp h1)
      rw [this, drainBufGo_nil, drainBufGo_nil]
  | succ k ih =>
      intro fuel2 advanceOf expected buf delivered h1 h2
      cases buf with
      | nil => rw [drainBufGo_nil, drainBufGo_nil]
      | cons hd tl =>
          cases fuel2 with
          | zero => simp at h2
          | succ m =>
              show (match lookupRemove expected (hd :: tl) with
                    | none => (expected, hd :: tl, delivered)
                    | some (d, buf1) => drainBufGo k advanceOf
                        (expected + advanceOf d) buf1 (delivered ++ [d])) =
                   (match lookupRemove expected (hd :: tl) with
                    | none => (expected, hd :: tl, delivered)
                    | some (d, buf1) => drainBufGo m advanceOf
                        (expected + advanceOf d) buf1 (delivered ++ [d]))
              cases hlr : lookupRemove expected (hd :: tl) with
              | none => rfl
              | some p =>
                  obtain ⟨d, buf1⟩ := p
                  have hlen := lookupRemove_length hlr
                  simp only [List.length_cons] at hlen h1 h2
                  exact ih m advanceOf (expected + advanceOf d) buf1
                    (delivered ++ [d]) (by omega) (by omega)

theorem drainBuf_eq (advanceOf : List ℕ → ℕ) (expected : ℕ)
    (buf : List (ℕ × List ℕ)) (delivered : List (List ℕ)) :
    drainBuf advanceOf expected buf delivered =
      match lookupRemove expected buf with
      | none => (expected, buf, delivered)
      | some (d, buf1) =>
          drainBuf advanceOf (expected + advanceOf d) buf1
            (delivered ++ [d]) := by
  unfold drainBuf
  cases buf with
  | nil => rw [drainBufGo_nil]; rfl
  | cons hd tl =>
      show (match lookupRemove expected (hd :: tl) with
            | none => (expected, hd :: tl, delivered)
            | some (d, buf1) => drainBufGo (hd :: tl).length.pred advanceOf
                (expected + advanceOf d) buf1 (delivered ++ [d])) = _
      cases hlr : lookupRemove expected (hd :: tl) with
      | none => rfl
      | some p =>
          obtain ⟨d, buf1⟩ := p
          have hlen := lookupRemove_length hlr
          simp only [List.length_cons] at hlen
          simp only [List.length_cons, Nat.pred_succ]
          exact drainBufGo_fuel tl.length buf1.length advanceOf _ buf1 _
            (by omega) (le_refl _)

theorem p2CubicEpochStart_dup_ack_count (cbrt : ℚ → ℚ) (now : ℚ)
    (st : P2State) :
    (p2CubicEpochStart cbrt now st).dup_ack_count = st.dup_ack_count := by
  unfold p2CubicEpochStart
  split_ifs <;> rfl

theorem p2CubicGrow_dup_ack_count (now acked_bytes : ℚ) (st1 : P2State) :
    (p2CubicGrow now acked_bytes st1).dup_ack_count =
      st1.dup_ack_count := by
  unfold p2CubicGrow
  dsimp only
  split_ifs <;> rfl

theorem p2_on_new_ack_dup_ack_count (cbrt : ℚ → ℚ) (now acked_bytes : ℚ)
    (st : P2State) :
    (p2_on_new_ack cbrt now acked_bytes st).dup_ack_count =
      st.dup_ack_count := by
  unfold p2_on_new_ack
  dsimp only
  split_ifs <;>
    simp [p2CubicGrow_dup_ack_count, p2CubicEpochStart_dup_ack_count]

theorem recvLoop_idle_stall
    (step : RecvState → List ℕ → RecvState × List ℕ × Bool)
    (st : RecvState) (es : List NetEvent) :
    recvLoop step st 0 (List.replicate 21 NetEvent.idle ++ es) =
      some false := by
  norm_num [List.replicate_succ, recvLoop]

/-! ### Claim theorems -/

/-- C1.  The claim says every in-order data segment advances the
receiver's expected counter by exactly the payload length, and every drain
step by the length of the drained payload.  p2_client.py does this, but
p1_client.py advances by DATA_SIZE = 1180 regardless of the payload
length: delivering the 5-octet in-order segment at offset 0 leaves
p1_client's expected counter at 1180 (and its emitted cumulative ACK at
1180, acknowledging 1175 bytes it never received), while p2_client's
expected counter is 5.  This evaluates both receivers at that failing
input; the spec itself (design note 3) marks the DATA_SIZE variant as
incorrect, so this is a bug in p1_client.py rather than a spec error. -/
theorem C1_p1_client_advances_by_DATA_SIZE :
    (p1ClientStep initRecvState (create_packet 0 [1, 2, 3, 4, 5])).1.expected
        = 1180 ∧
    (p1ClientStep initRecvState (create_packet 0 [1, 2, 3, 4, 5])).2.1
        = [1180] ∧
    (p2ClientStep initRecvState (create_packet 0 [1, 2, 3, 4, 5])).1.expected
        = 5 ∧
    (p2ClientStep initRecvState (create_packet 0 [1, 2, 3, 4, 5])).2.1
        = [5] := by
  decide

/-- C2 (counterexample).  The claim says no RTT sample ever comes from a
retransmitted segment.  In the concrete p1_server.py run c2Events the only
segment is sent at t = 0, timeout-retransmitted at t = 2, and cumulatively
ACKed at t = 3; the code finds base still in the in-flight table and feeds
the sample 3 - 2 = 1 taken from the retransmitted segment, so Karn's rule
fails on this run. -/
theorem C2_counterexample :
    (p1Run 1180 1180 c2Events p1InitState).2.timeoutRetx = [0] ∧
    (p1Run 1180 1180 c2Events p1InitState).2.samples = [⟨0, 1, true⟩] ∧
    ¬ karnRuleHolds (p1Run 1180 1180 c2Events p1InitState).2 := by
  refine ⟨by with_unfolding_all decide, by with_unfolding_all decide, ?_⟩
  unfold karnRuleHolds
  with_unfolding_all decide

/-- C2 (amended).  On a new cumulative ACK the p1_server.py sender feeds
an RTT sample whenever the segment at base is still in flight, measured
from that segment's most recent transmission time; segments that have been
retransmitted are not excluded (the code has no first-send check, so
Karn's rule is not implemented). -/
theorem C2_amended (now t : ℚ) (pkt : List ℕ) (st : P1State) (a : ℕ)
    (hp : parse_ack pkt = some a) (hgt : st.base < a)
    (ht : lookupTime st.base st.packets = some t) :
    (p1AckStep now pkt st).2.sample =
      some ⟨st.base, now - t, st.retransmitted.contains st.base⟩ ∧
    (p1AckStep now pkt st).1.rtt = p1_update_rtt (now - t) st.rtt := by
  unfold p1AckStep
  rw [hp]
  simp [hgt, ht]

/-- C2 (witness).  A sender state whose only in-flight segment (offset 0,
last sent at t = 2) is recorded as retransmitted receives the cumulative
ACK 1180 at t = 3: a sample is fed, from the retransmitted segment. -/
theorem C2_amended_witness :
    (p1AckStep 3 (create_ack 1180)
        ⟨0, 1180, [(0, 2)], [], ⟨-1, 0, 1⟩, [0]⟩).2.sample =
      some ⟨0, 3 - 2, ([0] : List ℕ).contains 0⟩ ∧
    (p1AckStep 3 (create_ack 1180)
        ⟨0, 1180, [(0, 2)], [], ⟨-1, 0, 1⟩, [0]⟩).1.rtt =
      p1_update_rtt (3 - 2) ⟨-1, 0, 1⟩ :=
  C2_amended 3 2 (create_ack 1180) ⟨0, 1180, [(0, 2)], [], ⟨-1, 0, 1⟩, [0]⟩
    1180 (by with_unfolding_all decide) (by decide)
    (by with_unfolding_all decide)

/-- C3 (counterexample).  The claim says RTO stays in [100 ms, 2 s] after
every estimator update in the Reno/CUBIC profile.  p1_server.py's first
sample of 10 s sets rto = 15 s (no upper clamp at all: the two-sided clamp
is commented out in the source), and p2_server.py's clamp is
[0.3 s, 3.0 s], so a 10 s sample from the initial state yields rto = 3 s;
both exceed 2 s. -/
theorem C3_counterexample :
    (p1_update_rtt 10 ⟨-1, 0, 1⟩).rto = 15 ∧
    ¬ (p1_update_rtt 10 ⟨-1, 0, 1⟩).rto ≤ 2 ∧
    (p2_update_rtt 10 ⟨1, 0, 1⟩).rto = 3 ∧
    ¬ (p2_update_rtt 10 ⟨1, 0, 1⟩).rto ≤ 2 := by
  with_unfolding_all decide

/-- C3 (amended).  After an estimator update: p1_server.py guarantees only
rto ≥ 100 ms, and only on non-first samples (a first sample sets rto to
1.5 x sample with no clamp at all); p2_server.py clamps rto into
[300 ms, 3 s] after every update. -/
theorem C3_amended (s d r0 : ℚ) (r1 r2 : RttState)
    (hfirst : r1.estimated_rtt ≠ -1) :
    1 / 10 ≤ (p1_update_rtt s r1).rto ∧
    (p1_update_rtt s ⟨-1, d, r0⟩).rto = s * (3 / 2) ∧
    3 / 10 ≤ (p2_update_rtt s r2).rto ∧ (p2_update_rtt s r2).rto ≤ 3 := by
  refine ⟨?_, ?_, ?_, ?_⟩
  · unfold p1_update_rtt
    rw [if_neg hfirst]
    exact le_max_left _ _
  · unfold p1_update_rtt
    simp
  · unfold p2_update_rtt
    exact le_max_left _ _
  · unfold p2_update_rtt
    exact max_le (by norm_num) (min_le_right _ _)

/-- C3 (witness).  The amended bounds evaluated at the 10 s sample from
the concrete states used in the counterexample. -/
theorem C3_amended_witness :
    1 / 10 ≤ (p1_update_rtt 10 ⟨1, 0, 1⟩).rto ∧
    (p1_update_rtt 10 ⟨-1, 0, 1⟩).rto = 10 * (3 / 2) ∧
    3 / 10 ≤ (p2_update_rtt 10 ⟨1, 0, 1⟩).rto ∧
    (p2_update_rtt 10 ⟨1, 0, 1⟩).rto ≤ 3 :=
  C3_amended 10 0 1 ⟨1, 0, 1⟩ ⟨1, 0, 1⟩ (by decide)

/-- C4.  In both p1_server.py and p2_server.py, with the segment at base
in flight, a duplicate ACK triggers the fast-retransmit action (resending
the segment at base) exactly when the duplicate-ACK counter for the
current base reaches three — not on the first or second duplicate and not
again on the fourth or later — and every new cumulative ACK resets the
duplicate-ACK counter dict to empty. -/
theorem C4_fast_retransmit_threshold (st1 : P1State) (st2 : P2State)
    (cbrt : ℚ → ℚ) (now1 now2 now3 now4 : ℚ)
    (pkt1 pkt2 pkt3 pkt4 : List ℕ) (a1 a2 b1 b2 : ℕ)
    (h1 : parse_ack pkt1 = some a1) (hd1 : a1 = st1.base)
    (hin1 : (lookupTime st1.base st1.packets).isSome = true)
    (h2 : parse_ack pkt2 = some a2) (hd2 : a2 = st2.base)
    (hin2 : (lookupTime st2.base st2.packets).isSome = true)
    (h3 : parse_ack pkt3 = some b1) (hg1 : st1.base < b1)
    (h4 : parse_ack pkt4 = some b2) (hg2 : st2.base < b2) :
    ((p1AckStep now1 pkt1 st1).2.fastRetx = some st1.base ↔
      getCount a1 st1.dup_ack_count + 1 = 3) ∧
    ((p2AckStep cbrt now2 pkt2 st2).2.fastRetx = some st2.base ↔
      getCount a2 st2.dup_ack_count + 1 = 3) ∧
    (p1AckStep now3 pkt3 st1).1.dup_ack_count = [] ∧
    (p2AckStep cbrt now4 pkt4 st2).1.dup_ack_count = [] := by
  refine ⟨?_, ?_, ?_, ?_⟩
  · unfold p1AckStep
    rw [h1]
    subst hd1
    by_cases hc : getCount st1.base st1.dup_ack_count + 1 = 3 <;>
      simp [hc, hin1]
  · unfold p2AckStep
    rw [h2]
    subst hd2
    by_cases hc : getCount st2.base st2.dup_ack_count + 1 = 3 <;>
      simp [hc, hin2] <;> split_ifs <;> simp
  · unfold p1AckStep
    rw [h3]
    simp [hg1]
  · unfold p2AckStep
    rw [h4]
    simp only [hg2, if_true, ite_true]
    rw [p2_on_new_ack_dup_ack_count]
    split_ifs <;> rfl

/-- C4 (witness).  Both senders, each with two segments in flight and two
duplicate ACKs already counted for base = 0, receive a third duplicate
(the counter reaches three, so the fast retransmit fires) and, in the
other scenario, the new cumulative ACK 1180 (the counter dict resets). -/
theorem C4_witness :
    ((p1AckStep 1 (create_ack 0) c4P1State).2.fastRetx =
        some c4P1State.base ↔
      getCount 0 c4P1State.dup_ack_count + 1 = 3) ∧
    ((p2AckStep (fun _ => 0) 1 (create_ack 0) c4P2State).2.fastRetx =
        some c4P2State.base ↔
      getCount 0 c4P2State.dup_ack_count + 1 = 3) ∧
    (p1AckStep 1 (create_ack 1180) c4P1State).1.dup_ack_count = [] ∧
    (p2AckStep (fun _ => 0) 1 (create_ack 1180) c4P2State).1.dup_ack_count
        = [] :=
  C4_fast_retransmit_threshold c4P1State c4P2State (fun _ => 0) 1 1 1 1
    (create_ack 0) (create_ack 0) (create_ack 1180) (create_ack 1180)
    0 0 1180 1180
    (by with_unfolding_all decide) (by with_unfolding_all decide)
    (by with_unfolding_all decide) (by with_unfolding_all decide)
    (by with_unfolding_all decide) (by with_unfolding_all decide)
    (by with_unfolding_all decide) (by with_unfolding_all decide)
    (by with_unfolding_all decide) (by with_unfolding_all decide)

/-- C5 (counterexample).  The claim says next_seq - base ≤
effective_window + MSS at all times, including after the controller
shrinks the window.  In the concrete p2_server.py run c5Events, slow start
grows cwnd to 3*MSS with 3*MSS bytes in flight; the timeout event then
sets cwnd := MSS, after which next_seq - base = 3540 > int(cwnd) + MSS =
2360, violating the claimed bound. -/
theorem C5_counterexample :
    ¬ p2WindowSafe
        (p2Run (fun _ => 0) 11800 c5Events (p2InitState 11800)).1 := by
  unfold p2WindowSafe
  with_unfolding_all decide

/-- C5 (amended).  The window bound is maintained by the fill loop itself:
after any fill phase, next_seq - base is at most the maximum of its value
before the phase and effective_window + MSS - 1.  In particular the bound
next_seq - base ≤ effective_window + MSS holds whenever it held on entry
to the fill phase; it can be violated (only) transiently, after the
controller shrinks the window below the bytes already in flight, until
base catches up. -/
theorem C5_amended (fuel total : ℕ) (w : ℤ) (base : ℕ) (now : ℚ)
    (next_seq : ℕ) (packets : List (ℕ × ℚ)) (sent : List ℕ) :
    ((fillGo fuel total w base now next_seq packets sent).1 : ℤ) - base ≤
      max ((next_seq : ℤ) - base) (w + MSS - 1) := by
  induction fuel generalizing next_seq packets sent with
  | zero => exact le_max_left _ _
  | succ k ih =>
      show ((if next_seq < total ∧ (next_seq : ℤ) - (base : ℤ) < w then
              fillGo k total w base now
                (next_seq +
                  min DATA_SIZE (total - DATA_SIZE * (next_seq / DATA_SIZE)))
                (setAssocQ next_seq now packets) (sent ++ [next_seq])
            else (next_seq, packets, sent)).1 : ℤ) - base ≤ _
      by_cases hg : next_seq < total ∧ (next_seq : ℤ) - (base : ℤ) < w
      · rw [if_pos hg]
        refine le_trans (ih _ _ _) (max_le (le_trans ?_ (le_max_right _ _))
          (le_max_right _ _))
        have hlen : min DATA_SIZE (total - DATA_SIZE * (next_seq / DATA_SIZE))
            ≤ MSS := min_le_left _ _
        have := hg.2
        push_cast
        push_cast at this
        omega
      · rw [if_neg hg]
        exact le_max_left _ _

/-- C6.  Codec round-trip: encoding an ACK carrying a 32-bit next-expected
offset n and decoding it with the sender's parser yields n; encoding a
data segment (o, p) with |p| ≤ DATA_SIZE and decoding it with the
receiver's parser yields (o, p). -/
theorem C6_codec_roundtrip (n o : ℕ) (p : List ℕ) (hn : n < 2 ^ 32)
    (ho : o < 2 ^ 32) (hp : p.length ≤ DATA_SIZE) :
    parse_ack (create_ack n) = some n ∧
    parse_packet (create_packet o p) = some (o, p) :=
  ⟨parse_ack_create_ack n hn, parse_packet_create_packet o p ho⟩

/-- C6 (witness).  The round trip evaluated at n = 5 and (o, p) =
(7, [1, 2, 3]). -/
theorem C6_witness :
    parse_ack (create_ack 5) = some 5 ∧
    parse_packet (create_packet 7 [1, 2, 3]) = some (7, [1, 2, 3]) :=
  C6_codec_roundtrip 5 7 [1, 2, 3] (by norm_num) (by norm_num) (by decide)

/-- C7 (counterexample).  The claim says every datagram shorter than 20
octets is classified undecodable and ignored with no state change.  The
senders' parse_ack only requires 4 octets: the 4-octet datagram
[0,0,0,5] is shorter than HEADER_SIZE yet decodes to the ACK value 5, and
feeding it to the p1_server.py ACK step moves base from 0 to 5. -/
theorem C7_counterexample :
    ([0, 0, 0, 5] : List ℕ).length < HEADER_SIZE ∧
    parse_ack [0, 0, 0, 5] = some 5 ∧
    (p1AckStep 0 [0, 0, 0, 5]
        { p1InitState with next_seq := 1180, packets := [(0, 0)] }).1.base
      = 5 := by
  refine ⟨by decide, by with_unfolding_all decide, ?_⟩
  with_unfolding_all decide

/-- C7 (amended).  The receivers reject data datagrams shorter than
HEADER_SIZE = 20 octets and ignore them with no state change and no ACK;
the senders reject ACK datagrams shorter than 4 octets and ignore them
with no state change, but decode any ACK datagram of length ≥ 4 from its
first four octets. -/
theorem C7_amended (pktD pktA pktB : List ℕ) (st : RecvState)
    (s1 : P1State) (now : ℚ) (hD : pktD.length < HEADER_SIZE)
    (hA : pktA.length < 4) (hB : 4 ≤ pktB.length) :
    parse_packet pktD = none ∧
    p1ClientStep st pktD = (st, [], false) ∧
    p2ClientStep st pktD = (st, [], false) ∧
    parse_ack pktA = none ∧
    p1AckStep now pktA s1 = (s1, ⟨none, none⟩) ∧
    (parse_ack pktB).isSome = true := by
  have hpd : parse_packet pktD = none := by
    unfold parse_packet
    rw [if_pos hD]
  have hpa : parse_ack pktA = none := by
    unfold parse_ack
    rw [if_pos hA]
  refine ⟨hpd, ?_, ?_, hpa, ?_, ?_⟩
  · unfold p1ClientStep
    rw [hpd]
  · unfold p2ClientStep
    rw [hpd]
  · unfold p1AckStep
    rw [hpa]
  · unfold parse_ack
    rw [if_neg (by omega)]
    rfl

/-- C7 (witness).  The amended behavior at a 5-octet data datagram, a
2-octet ACK datagram and a 4-octet ACK datagram. -/
theorem C7_witness :
    parse_packet [0, 0, 0, 0, 1] = none ∧
    p1ClientStep initRecvState [0, 0, 0, 0, 1] = (initRecvState, [], false) ∧
    p2ClientStep initRecvState [0, 0, 0, 0, 1] = (initRecvState, [], false) ∧
    parse_ack [1, 2] = none ∧
    p1AckStep 0 [1, 2] p1InitState = (p1InitState, ⟨none, none⟩) ∧
    (parse_ack [0, 0, 0, 9]).isSome = true :=
  C7_amended [0, 0, 0, 0, 1] [1, 2] [0, 0, 0, 9] initRecvState p1InitState 0
    (by decide) (by decide) (by decide)

/-- C8 (counterexample).  The claim says all senders space their five EOF
segments 100 ms apart; p2_server.py sleeps 0.05 s between EOF segments,
not 0.1 s. -/
theorem C8_counterexample :
    (p2SendEof 0).2 = 1 / 20 ∧ ¬ (p2SendEof 0).2 = 1 / 10 := by
  with_unfolding_all decide

/-- C8 (amended).  Once base ≥ total each sender's send loop exits
immediately (consuming no further events and performing no further
actions), and the EOF phase transmits exactly five EOF-marker segments
carrying offset next_seq (the stream end, since next_seq = total on a
normal exit), decodable as (next_seq, EOF); the inter-segment spacing is
100 ms in p1_server.py and p2_server2.py but 50 ms in p2_server.py. -/
theorem C8_amended (total sws ns : ℕ) (cbrt : ℚ → ℚ) (st1 : P1State)
    (st2 : P2State) (es1 es2 : List IterIn) (h1 : total ≤ st1.base)
    (h2 : total ≤ st2.base) (hns : ns < 2 ^ 32) :
    p1Run total sws es1 st1 = (st1, emptyLog) ∧
    p2Run cbrt total es2 st2 = (st2, emptyLog) ∧
    (p1SendEof ns).1 = List.replicate 5 (create_packet ns eofBytes) ∧
    (p2SendEof ns).1 = List.replicate 5 (create_packet ns eofBytes) ∧
    (p2s2SendEof ns).1 = List.replicate 5 (create_packet ns eofBytes) ∧
    parse_packet (create_packet ns eofBytes) = some (ns, eofBytes) ∧
    (p1SendEof ns).2 = 1 / 10 ∧ (p2SendEof ns).2 = 1 / 20 ∧
    (p2s2SendEof ns).2 = 1 / 10 := by
  refine ⟨?_, ?_, rfl, rfl, rfl, parse_packet_create_packet ns eofBytes hns,
    rfl, rfl, rfl⟩
  · cases es1 with
    | nil => rfl
    | cons e es =>
        show (if st1.base < total then _ else (st1, emptyLog)) = _
        rw [if_neg (by omega)]
  · cases es2 with
    | nil => rfl
    | cons e es =>
        show (if st2.base < total then _ else (st2, emptyLog)) = _
        rw [if_neg (by omega)]

/-- C8 (witness).  The amended statement at total = 0, a fresh sender
state, a nonempty event schedule and EOF offset ns = 5. -/
theorem C8_witness :
    p1Run 0 4096 [⟨0, none, 0, 0⟩] p1InitState = (p1InitState, emptyLog) ∧
    p2Run (fun _ => 0) 0 [⟨0, none, 0, 0⟩] (p2InitState 0) =
      (p2InitState 0, emptyLog) ∧
    (p1SendEof 5).1 = List.replicate 5 (create_packet 5 eofBytes) ∧
    (p2SendEof 5).1 = List.replicate 5 (create_packet 5 eofBytes) ∧
    (p2s2SendEof 5).1 = List.replicate 5 (create_packet 5 eofBytes) ∧
    parse_packet (create_packet 5 eofBytes) = some (5, eofBytes) ∧
    (p1SendEof 5).2 = 1 / 10 ∧ (p2SendEof 5).2 = 1 / 20 ∧
    (p2s2SendEof 5).2 = 1 / 10 :=
  C8_amended 0 4096 5 (fun _ => 0) p1InitState (p2InitState 0)
    [⟨0, none, 0, 0⟩] [⟨0, none, 0, 0⟩] (by decide) (by decide)
    (by norm_num)

/-- C9 (counterexample).  The claim says the receiver declares the session
stalled after 20 consecutive 500 ms idle intervals.  After exactly 20
consecutive idle intervals both receive loops are still running (the
source breaks only when consecutive_timeouts > 20): the run of 20 idle
events returns no verdict. -/
theorem C9_counterexample :
    recvLoop p1ClientStep initRecvState 0
      (List.replicate 20 NetEvent.idle) = none ∧
    recvLoop p2ClientStep initRecvState 0
      (List.replicate 20 NetEvent.idle) = none := by
  decide

/-- C9 (amended).  From any receiver state, 21 consecutive idle intervals
(each one 500 ms socket timeout) make both receive loops break out and
return the failure verdict, regardless of what would come afterwards;
the output file is written only on the EOF path, which returns the success
verdict, so a stalled session writes nothing. -/
theorem C9_amended (st1 st2 : RecvState) (es1 es2 : List NetEvent) :
    recvLoop p1ClientStep st1 0
      (List.replicate 21 NetEvent.idle ++ es1) = some false ∧
    recvLoop p2ClientStep st2 0
      (List.replicate 21 NetEvent.idle ++ es2) = some false :=
  ⟨recvLoop_idle_stall p1ClientStep st1 es1,
   recvLoop_idle_stall p2ClientStep st2 es2⟩

/-- C10.  The run() loops of all three servers start the transfer on any
inbound datagram with nonzero length: the payload is never compared with
the request octet b'G' = 71, so any nonempty datagram triggers
send_file. -/
theorem C10_any_nonempty_request (d : List ℕ) (h : d ≠ []) :
    serverAcceptsRequest d = true ∧ serverAwaitRequest [d] = some d := by
  have hl : 0 < d.length := List.length_pos.mpr h
  have ha : serverAcceptsRequest d = true := by
    unfold serverAcceptsRequest
    exact decide_eq_true hl
  refine ⟨ha, ?_⟩
  unfold serverAwaitRequest
  simp [List.find?, ha]

/-- C10 (witness).  The single-octet garbage datagram [0], which is not
the request octet b'G' = 71, still starts the transfer. -/
theorem C10_witness :
    serverAcceptsRequest [0] = true ∧ serverAwaitRequest [[0]] = some [0] :=
  C10_any_nonempty_request [0] (by decide)

end RUDP
